import Mathlib

/-!
Verification development for the Gastropath pipeline
(src/gastropath.py and src/gastropath_server.py).

The Python code is shallowly embedded: each external HTTP call is an
oracle field of a `World` structure, dictionaries returned by providers
become structures with `Option`-typed fields (a Python `dict.get` that can
yield `None` becomes `Option`), and the Python truthiness tests used by
the code are modelled explicitly.  A provider call the source wraps in
try/except, or whose bad status the source checks and handles, is
collapsed to none or false; the two HTTP calls the source leaves
unguarded - the photo fetch of upload_image_to_cloudinary and the Yelp
search of get_cuisine_type_from_yelp - are modelled with an explicit
raising outcome (`PyResult.raise`), because an exception there escapes
the callee and is caught only by the orchestrator catch-all, skipping
the rest of the entry.  Percent-decoding inside query-string
parsing is not modelled; splitting, grouping and presence or absence of
parameters follow CPython urllib.parse semantics (single-character
separators only, blank values dropped, first split at the separator).
-/

/-- Python string falsiness for an optional string: `not x` is true for
`None` and for the empty string. -/
def pyNotOptStr : Option String → Bool
  | none => true
  | some s => s.isEmpty

/-- Structural prefix test over character lists. -/
def charsPrefix : List Char → List Char → Bool
  | [], _ => true
  | _ :: _, [] => false
  | p :: ps, c :: cs => p = c && charsPrefix ps cs

/-- Python str.startswith. -/
def pyStartsWith (s pre : String) : Bool :=
  charsPrefix pre.data s.data

/-- ASCII letter test, as used by CPython scheme detection and by the
trigger path regular expression. -/
def isAsciiAlpha (c : Char) : Bool :=
  (65 ≤ c.toNat && c.toNat ≤ 90) || (97 ≤ c.toNat && c.toNat ≤ 122)

/-- ASCII digit test. -/
def isAsciiDigit (c : Char) : Bool :=
  48 ≤ c.toNat && c.toNat ≤ 57

/-- ASCII alphanumeric test, the character class of the path check
`[A-Za-z0-9]` in gastropath_server.py line 69. -/
def isAsciiAlnum (c : Char) : Bool :=
  isAsciiAlpha c || isAsciiDigit c

/-- Characters allowed after the first one in a URL scheme
(`scheme_chars` of urllib.parse). -/
def schemeChar (c : Char) : Bool :=
  isAsciiAlnum c || c = '+' || c = '-' || c = '.'

/-- Break a character list at the first occurrence of `c`: returns the
part before it and, when `c` occurs, the part after it. -/
def breakAtChar (c : Char) : List Char → List Char × Option (List Char)
  | [] => ([], none)
  | x :: xs =>
    if x = c then ([], some xs)
    else
      let r := breakAtChar c xs
      (x :: r.1, r.2)

/-- Longest prefix avoiding every character of `stops`, with the rest. -/
def spanNotIn (stops : List Char) : List Char → List Char × List Char
  | [] => ([], [])
  | x :: xs =>
    if stops.contains x then ([], x :: xs)
    else
      let r := spanNotIn stops xs
      (x :: r.1, r.2)

/-- Split a character list at every occurrence of `c` (CPython
`str.split` on a one-character separator). -/
def splitOnChar (c : Char) : List Char → List (List Char)
  | [] => [[]]
  | x :: xs =>
    if x = c then [] :: splitOnChar c xs
    else
      match splitOnChar c xs with
      | [] => [[x]]
      | h :: t => (x :: h) :: t

/-- Result of urllib.parse.urlparse restricted to the fields the
repository reads (scheme, netloc, path, query). -/
structure ParsedUrl where
  scheme : String
  netloc : String
  path : String
  query : String
deriving Repr, DecidableEq

/-- urllib.parse.urlsplit as used by both scripts: tab, CR and LF are
removed anywhere in the URL; a scheme is recognised when the text before
the first colon starts with an ASCII letter and contains only scheme
characters; the netloc follows a leading double slash and runs to the
first slash, question mark or hash; the fragment is split off at the
first hash, then the query at the first question mark. -/
def pyUrlsplit (url : String) : ParsedUrl :=
  let cs := url.data.filter (fun c => !(c = '\t' || c = '\n' || c = '\r'))
  let schemeRest : List Char × List Char :=
    match breakAtChar ':' cs with
    | (before, some after) =>
      if !before.isEmpty && isAsciiAlpha (before.headD ' ') && before.all schemeChar
      then (before.map Char.toLower, after)
      else ([], cs)
    | (_, none) => ([], cs)
  let netlocRest : List Char × List Char :=
    match schemeRest.2 with
    | '/' :: '/' :: r => spanNotIn ['/', '?', '#'] r
    | r => ([], r)
  let beforeFrag := (breakAtChar '#' netlocRest.2).1
  let pathQuery := breakAtChar '?' beforeFrag
  { scheme := String.mk schemeRest.1
  , netloc := String.mk netlocRest.1
  , path := String.mk pathQuery.1
  , query := String.mk (pathQuery.2.getD []) }

/-- urllib.parse.parse_qsl with default options: fields are split at
ampersands, empty fields are skipped, a field without an equals sign is
skipped, a field whose value is empty is skipped, and a field is split at
its first equals sign (percent-decoding is not modelled). -/
def parse_qsl (qs : String) : List (String × String) :=
  (splitOnChar '&' qs.data).filterMap (fun piece =>
    match breakAtChar '=' piece with
    | (_, none) => none
    | (nm, some value) =>
      if value.isEmpty then none
      else some (String.mk nm, String.mk value))

/-- Append one key-value pair to an association of keys to value lists,
preserving first-insertion order as a Python dict does. -/
def addQsPair (acc : List (String × List String)) (k v : String) :
    List (String × List String) :=
  match acc with
  | [] => [(k, [v])]
  | (k', vs) :: rest =>
    if k' = k then (k', vs ++ [v]) :: rest
    else (k', vs) :: addQsPair rest k v

/-- urllib.parse.parse_qs: group the pair list by key. -/
def parse_qs (qs : String) : List (String × List String) :=
  (parse_qsl qs).foldl (fun acc kv => addQsPair acc kv.1 kv.2) []

/-- Upper-case hexadecimal digit of a value below sixteen. -/
def hexDigitChar (n : Nat) : Char :=
  if n < 10 then Char.ofNat (48 + n) else Char.ofNat (55 + n)

/-- Percent-encode one byte value. -/
def percentEncodeByte (b : Nat) : List Char :=
  ['%', hexDigitChar (b / 16), hexDigitChar (b % 16)]

/-- The UTF-8 byte values of one character. -/
def utf8Bytes (c : Char) : List Nat :=
  let n := c.toNat
  if n < 128 then [n]
  else if n < 2048 then [192 + n / 64, 128 + n % 64]
  else if n < 65536 then [224 + n / 4096, 128 + (n / 64) % 64, 128 + n % 64]
  else [240 + n / 262144, 128 + (n / 4096) % 64, 128 + (n / 64) % 64, 128 + n % 64]

/-- urllib.parse.quote_plus with an empty safe set, as urlencode applies
it: ASCII alphanumerics and underscore, dot, dash and tilde pass through,
a space becomes a plus, and every other character is percent-encoded
byte by byte from its UTF-8 form. -/
def quote_plus (s : String) : String :=
  String.mk (s.data.foldr (fun c acc =>
    (if c = ' ' then ['+']
     else if isAsciiAlnum c || c = '_' || c = '.' || c = '-' || c = '~' then [c]
     else List.flatten ((utf8Bytes c).map percentEncodeByte)) ++ acc) [])

/-- urllib.parse.urlencode with doseq, over an ordered association of
keys to value lists. -/
def urlencode_doseq (params : List (String × List String)) : String :=
  String.intercalate "&" (params.foldr (fun kv acc =>
    kv.2.map (fun v => quote_plus kv.1 ++ "=" ++ quote_plus v) ++ acc) [])

/-- Value of the price_level key of a Google place details result: the
key may be absent, hold an integer tier, or hold any other value (the
script only special-cases integers). -/
inductive PriceField where
  | absent : PriceField
  | num : Int → PriceField
  | str : String → PriceField
deriving Repr, DecidableEq

/-- One entry of the address_components list of a place details result;
long_name is optional because component.get never raises. -/
structure AddressComponent where
  types : List String
  long_name : Option String
deriving Repr, DecidableEq

/-- The fields of a Google place details result that
process_place_details reads (gastropath.py lines 145 to 175); photos is
the list of photo_reference tokens of the photo objects. -/
structure GoogleDetails where
  name : Option String
  formatted_address : Option String
  website : Option String
  price_level : PriceField
  address_components : List AddressComponent
  photos : List String
  url : Option String
deriving Repr

/-- The dictionary built by process_place_details.  city and country are
optional because the loop stores component.get, which can yield None;
cuisine_type is added later by process_restaurant. -/
structure PlaceDetails where
  name : String
  website : String
  price_level : String
  city : Option String
  country : Option String
  google_maps_link : String
  address : String
  photo_reference : Option String
  cuisine_type : Option String := none
deriving Repr, DecidableEq

/-- n-fold repetition of a string. -/
def strRepeat (s : String) : Nat → String
  | 0 => ""
  | n + 1 => s ++ strRepeat s n

/-- Python string-by-integer multiplication: a non-positive count yields
the empty string. -/
def pyStrTimes (s : String) (n : Int) : String :=
  strRepeat s n.toNat

/-- Lines 147 to 149 of gastropath.py: the price tier becomes a repeated
banknote glyph when it is an integer, the question-mark placeholder when
the key is absent, and is passed through unchanged otherwise. -/
def renderPriceLevel : PriceField → String
  | PriceField.absent => "❓"
  | PriceField.num n => pyStrTimes "💵" n
  | PriceField.str s => s

/-- Lines 152 to 158 of gastropath.py: one pass over the address
components, overwriting city on every component tagged locality and
country on every component tagged country. -/
def scanComponents (components : List AddressComponent) :
    Option String × Option String :=
  components.foldl
    (fun acc c =>
      ((if c.types.contains "locality" then c.long_name else acc.1),
       (if c.types.contains "country" then c.long_name else acc.2)))
    (some "No city available", some "No country available")

/-- process_place_details, gastropath.py lines 145 to 175. -/
def process_place_details (details : GoogleDetails) : PlaceDetails :=
  let cc := scanComponents details.address_components
  { name := details.name.getD "Unknown"
  , website := details.website.getD "No website available"
  , price_level := renderPriceLevel details.price_level
  , city := cc.1
  , country := cc.2
  , google_maps_link := details.url.getD "No link available"
  , address := details.formatted_address.getD "No address available"
  , photo_reference := details.photos.head?
  , cuisine_type := none }

/-- Outcome of a Python call that the surrounding code does not guard:
either it raises an exception that propagates to the caller, or it
returns a value. -/
inductive PyResult (α : Type) where
  | raise : PyResult α
  | val : α → PyResult α
deriving Repr, DecidableEq

/-- Oracle for every external HTTP interaction of gastropath.py.
Requests that the script guards with try/except or an OK-status check
(expansion, place details, find-place, the Cloudinary upload, the two
Notion writes) are collapsed to none or false on any failure.  The two
unguarded requests keep a raising outcome: photo_fetch is the
requests.get of line 182 (raise = the request raised, val true = HTTP
200, val false = any other status), and yelp_search is the requests.get
of line 325 (raise = the request raised, val none = a non-200 status or
an empty business list, val categories = the category titles of the
first business). -/
structure World where
  expand_short_url : String → Option String
  place_details_request : String → Option GoogleDetails
  find_place_request : String → Option String
  photo_fetch : String → PyResult Bool
  cloudinary_upload : String → Option String
  yelp_search : String → Option String → PyResult (Option (List String))
  notion_update_ok : Bool
  notion_create_ok : Bool

/-- extract_place_info, gastropath.py lines 66 to 76: read the ftid and
q query parameters of the expanded URL; when either is missing (or
falsy) both results are None. -/
def extract_place_info (url : String) : Option String × Option String :=
  let query_params := parse_qs (pyUrlsplit url).query
  let ftid := (query_params.lookup "ftid").bind List.head?
  let query := (query_params.lookup "q").bind List.head?
  if pyNotOptStr ftid || pyNotOptStr query then (none, none)
  else (ftid, query)

/-- Lines 80 to 89 of get_place_details_from_google: an identifier that
starts with http is expanded and mined for ftid and q, failing the entry
when expansion or extraction fails; any other identifier passes through
verbatim as the free-text query with no place identifier. -/
def resolve_identifier (w : World) (identifier : String) :
    Option (Option String × String) :=
  if pyStartsWith identifier "http" then
    match w.expand_short_url identifier with
    | none => none
    | some expanded =>
      match extract_place_info expanded with
      | (some ftid, some q) => some (some ftid, q)
      | _ => none
  else
    some (none, identifier)

/-- get_place_details_from_google, gastropath.py lines 78 to 143: after
resolution, a details request by ftid is tried first when an ftid is
available; on its failure the free-text query is sent to find-place and
the first candidate id is used for a details request. -/
def get_place_details_from_google (w : World) (identifier : String) :
    Option PlaceDetails :=
  match resolve_identifier w identifier with
  | none => none
  | some (ftid, query) =>
    let viaId : Option PlaceDetails :=
      if pyNotOptStr ftid then none
      else
        match ftid with
        | none => none
        | some f => (w.place_details_request f).map process_place_details
    match viaId with
    | some pd => some pd
    | none =>
      match w.find_place_request query with
      | none => none
      | some place_id =>
        (w.place_details_request place_id).map process_place_details

/-- upload_image_to_cloudinary, gastropath.py lines 177 to 197: a falsy
reference yields None before any request; the photo fetch of line 182 is
outside the try/except, so a raising fetch propagates out of the relay;
a non-200 fetch status yields None (line 196), and the guarded Cloudinary
upload yields None on any exception (line 194). -/
def upload_image_to_cloudinary (w : World) (photo_reference : Option String) :
    PyResult (Option String) :=
  if pyNotOptStr photo_reference then PyResult.val none
  else
    match photo_reference with
    | none => PyResult.val none
    | some r =>
      match w.photo_fetch r with
      | PyResult.raise => PyResult.raise
      | PyResult.val true => PyResult.val (w.cloudinary_upload r)
      | PyResult.val false => PyResult.val none

/-- get_cuisine_type_from_yelp, gastropath.py lines 315 to 336: the
requests.get of line 325 is unguarded, so a raising request propagates
to the caller; a non-200 status or no businesses yield the placeholder,
and otherwise the categories of the first business are comma-joined
(empty category list gives the placeholder). -/
def get_cuisine_type_from_yelp (w : World) (restaurant_name : String)
    (city : Option String) : PyResult String :=
  match w.yelp_search restaurant_name city with
  | PyResult.raise => PyResult.raise
  | PyResult.val none => PyResult.val "❓"
  | PyResult.val (some categories) =>
    PyResult.val
      (if categories.isEmpty then "❓" else String.intercalate ", " categories)

/-- The typed properties dictionary sent to Notion.  Every key below is
always present in the request body; a none value is a JSON null
content. -/
structure NotionProps where
  city : Option String
  country : Option String
  cuisine_type : Option String
  google_maps_link : Option String
  price_range : Option String
  website : Option String
  name : Option String
deriving Repr, DecidableEq

/-- Properties dictionary of update_notion_entry, gastropath.py lines
221 to 245.  The keys city, country, google_maps_link, price_level,
website and name are always set by process_place_details, so the
question-mark defaults of dict.get fire only for cuisine_type. -/
def update_props (d : PlaceDetails) : NotionProps :=
  { city := d.city
  , country := d.country
  , cuisine_type := some (d.cuisine_type.getD "❓")
  , google_maps_link := some d.google_maps_link
  , price_range := some d.price_level
  , website := some d.website
  , name := some d.name }

/-- Properties dictionary of create_notion_entry, gastropath.py lines
266 to 293 (textually identical to the update dictionary). -/
def create_props (d : PlaceDetails) : NotionProps :=
  { city := d.city
  , country := d.country
  , cuisine_type := some (d.cuisine_type.getD "❓")
  , google_maps_link := some d.google_maps_link
  , price_range := some d.price_level
  , website := some d.website
  , name := some d.name }

/-- Request body of update_notion_entry; cover is the optional cover
block, present only when cover_url is truthy (line 246). -/
structure PatchArgs where
  entry_id : String
  props : NotionProps
  cover : Option String
deriving Repr, DecidableEq

/-- Request body of create_notion_entry, with the fixed emoji icon. -/
structure CreateArgs where
  props : NotionProps
  icon : String
  cover : Option String
deriving Repr, DecidableEq

/-- Payload built by update_notion_entry, gastropath.py lines 214 to 252. -/
def update_notion_payload (entry_id : String) (d : PlaceDetails)
    (cover_url : Option String) : PatchArgs :=
  { entry_id := entry_id
  , props := update_props d
  , cover := if pyNotOptStr cover_url then none else cover_url }

/-- Payload built by create_notion_entry, gastropath.py lines 259 to 305. -/
def create_notion_payload (d : PlaceDetails) (cover_url : Option String) :
    CreateArgs :=
  { props := create_props d
  , icon := "🍽️"
  , cover := if pyNotOptStr cover_url then none else cover_url }

/-- One database entry handed to process_restaurant: id is none when the
dictionary has no id key (the single-URL path builds the entry with only
an identifier). -/
structure Entry where
  id : Option String
  identifier : String
deriving Repr, DecidableEq

/-- Observable outcome of one process_restaurant call: the patch request
issued (if any), the create request issued (if any), and the reported
success of the sync step when one was attempted. -/
structure RunResult where
  patchCall : Option PatchArgs
  createCall : Option CreateArgs
  sync_success : Option Bool
deriving Repr

/-- process_restaurant, gastropath.py lines 338 to 369.  When the place
lookup yields nothing the function logs a warning and returns with no
sync call.  Otherwise, inside the try block of lines 344 to 367: the
cover upload runs only for a truthy photo reference, then the cuisine
lookup, then exactly one of update or create depending on the id key.
An exception raised by the photo fetch or by the Yelp request is caught
by the catch-all at line 366, so the entry is abandoned with neither
sync operation invoked and nothing escapes the call. -/
def process_restaurant (w : World) (entry : Entry) : RunResult :=
  match get_place_details_from_google w entry.identifier with
  | none => { patchCall := none, createCall := none, sync_success := none }
  | some pd =>
    match (if pyNotOptStr pd.photo_reference then PyResult.val none
           else upload_image_to_cloudinary w pd.photo_reference) with
    | PyResult.raise =>
      { patchCall := none, createCall := none, sync_success := none }
    | PyResult.val cover_url =>
      match get_cuisine_type_from_yelp w pd.name pd.city with
      | PyResult.raise =>
        { patchCall := none, createCall := none, sync_success := none }
      | PyResult.val cuisine =>
        let pd' := { pd with cuisine_type := some cuisine }
        if entry.id.isSome && entry.id != some "new_entry" then
          { patchCall := some (update_notion_payload (entry.id.getD "") pd' cover_url)
          , createCall := none
          , sync_success := some w.notion_update_ok }
        else
          { patchCall := none
          , createCall := some (create_notion_payload pd' cover_url)
          , sync_success := some w.notion_create_ok }

/-- main with a URL argument, gastropath.py lines 371 to 393: the entry
dictionary holds only the identifier, process_restaurant runs, main
returns None on every path and the script never calls sys.exit, so the
interpreter exit status of a run that reaches the end of main is zero;
the second component is that exit status. -/
def main_single (w : World) (url : String) : RunResult × Nat :=
  (process_restaurant w { id := none, identifier := url }, 0)

/-- One row of the Notion query response: its page id and, per property
name, the list of plain_text fragments of that property title. -/
structure NotionPage where
  id : String
  properties : List (String × List String)
deriving Repr, DecidableEq

/-- get_restaurants_from_notion, gastropath.py lines 199 to 212: on a
bad HTTP status the result is the empty list; otherwise every row whose
properties contain the key Name is kept, and its identifier is the
plain_text of the first title fragment.  The none result models the
uncaught IndexError raised when a kept row has an empty title list. -/
def get_restaurants_from_notion (status_ok : Bool) (results : List NotionPage) :
    Option (List Entry) :=
  if status_ok then
    (results.filter (fun p => (p.properties.lookup "Name").isSome)).mapM
      (fun p => ((p.properties.lookup "Name").bind List.head?).map
        (fun t => { id := some p.id, identifier := t }))
  else some []

/-- Oracle for the subprocess the trigger endpoint starts: the exit
status of python3 gastropath.py run on the sanitized URL. -/
structure ServerWorld where
  run_pipeline : String → Nat

/-- Observable outcome of one add_restaurant request: the HTTP status
returned and, when the pipeline subprocess was started, its argument. -/
structure ServerResult where
  status : Nat
  invoked : Option String
deriving Repr, DecidableEq

/-- The single allow-listed query parameter of the trigger endpoint
(gastropath_server.py line 73). -/
def allowed_params : List String := ["g_st"]

/-- The path check of gastropath_server.py line 69: re.match with the
pattern requiring a slash followed by one or more ASCII alphanumerics up
to the end (urlsplit has already removed tabs and newlines, so the
end-of-text anchor is exact). -/
def rePathMatch (path : String) : Bool :=
  match path.data with
  | '/' :: cs => !cs.isEmpty && cs.all isAsciiAlnum
  | _ => false

/-- Lines 72 to 74 of gastropath_server.py: the query parameters of the
inbound URL restricted to the allow list. -/
def sanitizedQueryParams (url : String) : List (String × List String) :=
  (parse_qs (pyUrlsplit url).query).filter
    (fun kv => allowed_params.contains kv.1)

/-- validate_and_sanitize_url, gastropath_server.py lines 57 to 80.  The
first component is the sanitized URL on success; the second is the error
message on failure (exactly one of the two is present). -/
def validate_and_sanitize_url (url : String) : Option String × Option String :=
  if url.isEmpty then (none, some "Invalid URL format")
  else if url.length > 2000 then (none, some "URL exceeds maximum length")
  else
    let parsed := pyUrlsplit url
    if parsed.netloc ≠ "maps.app.goo.gl" then
      (none, some "URL is not from a trusted domain")
    else if ¬ rePathMatch parsed.path then (none, some "Invalid URL path")
    else
      let sp := sanitizedQueryParams url
      let base := "https://" ++ parsed.netloc ++ parsed.path
      (some (if sp.isEmpty then base else base ++ "?" ++ urlencode_doseq sp), none)

/-- add_restaurant, gastropath_server.py lines 82 to 134: a wrong API
key yields 401; a missing or falsy URL yields 400; a validation failure
yields 400; otherwise the pipeline subprocess runs on the sanitized URL
and its exit status selects 200 or 500.  The subprocess is started only
on the success path. -/
def add_restaurant (api_key_env : Option String) (sw : ServerWorld)
    (api_key : Option String) (body_url : Option String) : ServerResult :=
  if api_key ≠ api_key_env then { status := 401, invoked := none }
  else
    match body_url with
    | none => { status := 400, invoked := none }
    | some url =>
      if url.isEmpty then { status := 400, invoked := none }
      else
        match validate_and_sanitize_url url with
        | (some s, none) =>
          if sw.run_pipeline s = 0 then { status := 200, invoked := some s }
          else { status := 500, invoked := some s }
        | _ => { status := 400, invoked := none }

/-- Every Notion property of a payload carries a concrete (non-null)
value. -/
def allPropsPresent (p : NotionProps) : Prop :=
  p.city.isSome ∧ p.country.isSome ∧ p.cuisine_type.isSome
  ∧ p.google_maps_link.isSome ∧ p.price_range.isSome
  ∧ p.website.isSome ∧ p.name.isSome

/-- A place details result with every optional field absent. -/
def emptyGoogleDetails : GoogleDetails :=
  { name := none, formatted_address := none, website := none
  , price_level := PriceField.absent, address_components := []
  , photos := [], url := none }

/-- Two address components both tagged locality, with distinct names. -/
def twoLocalityDetails : GoogleDetails :=
  { emptyGoogleDetails with
      address_components :=
        [{ types := ["locality"], long_name := some "Amsterdam" },
         { types := ["locality"], long_name := some "Rotterdam" }] }

/-- A details result whose integer price tier is five. -/
def tierFiveDetails : GoogleDetails :=
  { emptyGoogleDetails with price_level := PriceField.num 5 }

/-- A details result whose price tier is a non-numeric value. -/
def tierTextDetails : GoogleDetails :=
  { emptyGoogleDetails with price_level := PriceField.str "cheap" }

/-- A locality component whose long_name key is missing. -/
def namelessLocalityDetails : GoogleDetails :=
  { emptyGoogleDetails with
      address_components := [{ types := ["locality"], long_name := none }] }

/-- A details result in which every address component has a name. -/
def parisDetails : GoogleDetails :=
  { emptyGoogleDetails with
      name := some "Chez Test",
      address_components :=
        [{ types := ["locality"], long_name := some "Paris" },
         { types := ["country"], long_name := some "France" }] }

/-- A world in which every external call fails with a handled error
(bad statuses and guarded exceptions, nothing raising). -/
def failingWorld : World :=
  { expand_short_url := fun _ => none
  , place_details_request := fun _ => none
  , find_place_request := fun _ => none
  , photo_fetch := fun _ => PyResult.val false
  , cloudinary_upload := fun _ => none
  , yelp_search := fun _ _ => PyResult.val none
  , notion_update_ok := false
  , notion_create_ok := false }

/-- A world whose place lookups succeed and return one photo reference,
while the photo fetch from Google answers with a non-200 status. -/
def photoFailWorld : World :=
  { failingWorld with
      place_details_request := fun _ =>
        some { emptyGoogleDetails with name := some "Chez Test", photos := ["ref1"] },
      find_place_request := fun _ => some "pid1",
      notion_update_ok := true,
      notion_create_ok := true }

/-- Like photoFailWorld, except the photo fetch request raises (for
example a connection error), the case gastropath.py line 182 leaves
unguarded. -/
def photoRaiseWorld : World :=
  { photoFailWorld with photo_fetch := fun _ => PyResult.raise }

/-- A world that expands every short link to a URL that carries a q
query parameter but no ftid. -/
def noFtidWorld : World :=
  { failingWorld with
      expand_short_url := fun _ => some "https://maps.google.com/?q=x" }

theorem foldl_overwrite_eq (tag : String) (l : List AddressComponent)
    (init : Option String) :
    l.foldl (fun acc c => if c.types.contains tag then c.long_name else acc) init
      = Option.elim (l.reverse.find? (fun c => c.types.contains tag)) init
          (fun c => c.long_name) := by
  induction l generalizing init with
  | nil => rfl
  | cons c t ih =>
    rw [List.foldl_cons, ih, List.reverse_cons, List.find?_append]
    rcases h : List.find? (fun c => c.types.contains tag) t.reverse with _ | x
    · rw [h, Option.none_or, Option.elim_none]
      by_cases hc : c.types.contains tag = true
      · rw [if_pos hc, @List.find?_cons_of_pos _ (fun c => c.types.contains tag) c [] hc,
          Option.elim_some]
      · rw [if_neg hc, @List.find?_cons_of_neg _ (fun c => c.types.contains tag) c [] hc,
          List.find?_nil, Option.elim_none]
    · rw [h]
      have hor : (some x).or (List.find? (fun c => c.types.contains tag) [c]) = some x := rfl
      rw [hor, Option.elim_some, Option.elim_some]

theorem scanComponents_fst (l : List AddressComponent) (a b : Option String) :
    (l.foldl
        (fun acc c =>
          ((if c.types.contains "locality" then c.long_name else acc.1),
           (if c.types.contains "country" then c.long_name else acc.2)))
        (a, b)).1
      = l.foldl (fun acc c => if c.types.contains "locality" then c.long_name else acc) a := by
  induction l generalizing a b with
  | nil => rfl
  | cons c t ih => rw [List.foldl_cons, List.foldl_cons]; exact ih _ _

theorem scanComponents_snd (l : List AddressComponent) (a b : Option String) :
    (l.foldl
        (fun acc c =>
          ((if c.types.contains "locality" then c.long_name else acc.1),
           (if c.types.contains "country" then c.long_name else acc.2)))
        (a, b)).2
      = l.foldl (fun acc c => if c.types.contains "country" then c.long_name else acc) b := by
  induction l generalizing a b with
  | nil => rfl
  | cons c t ih => rw [List.foldl_cons, List.foldl_cons]; exact ih _ _

theorem process_city_eq (d : GoogleDetails) :
    (process_place_details d).city
      = Option.elim
          (d.address_components.reverse.find? (fun c => c.types.contains "locality"))
          (some "No city available") (fun c => c.long_name) := by
  show (scanComponents d.address_components).1 = _
  unfold scanComponents
  rw [scanComponents_fst, foldl_overwrite_eq]

theorem process_country_eq (d : GoogleDetails) :
    (process_place_details d).country
      = Option.elim
          (d.address_components.reverse.find? (fun c => c.types.contains "country"))
          (some "No country available") (fun c => c.long_name) := by
  show (scanComponents d.address_components).2 = _
  unfold scanComponents
  rw [scanComponents_snd, foldl_overwrite_eq]

/-- C2, corrected: the spec claims the first matching address component
wins; in the code each matching component overwrites the field, so the
last one wins.  On a list with two locality components the city is the
second name, not the first. -/
theorem c2_counterexample :
    (process_place_details twoLocalityDetails).city = some "Rotterdam"
  ∧ (process_place_details twoLocalityDetails).city ≠ some "Amsterdam" :=
  ⟨rfl, by decide⟩

/-- C2, amended: when normalizing place details, the city is the long
name of the LAST address component tagged locality (none matching
leaves the placeholder), and symmetrically for country. -/
theorem c2_amended (d : GoogleDetails) :
    (process_place_details d).city
        = Option.elim
            (d.address_components.reverse.find? (fun c => c.types.contains "locality"))
            (some "No city available") (fun c => c.long_name)
  ∧ (process_place_details d).country
        = Option.elim
            (d.address_components.reverse.find? (fun c => c.types.contains "country"))
            (some "No country available") (fun c => c.long_name) :=
  ⟨process_city_eq d, process_country_eq d⟩

theorem strRepeat_length (s : String) (k : Nat) :
    (strRepeat s k).length = k * s.length := by
  induction k with
  | zero => simp [strRepeat]
  | succ n ih => rw [strRepeat, String.length_append, ih]; ring

/-- C3, corrected: the spec claims numeric tiers outside 0..4 and
non-numeric tiers render as the placeholder; in the code every integer
tier is rendered as that many glyphs (tier 5 gives five glyphs) and a
non-numeric present tier passes through verbatim. -/
theorem c3_counterexample :
    (process_place_details tierFiveDetails).price_level = "💵💵💵💵💵"
  ∧ (process_place_details tierFiveDetails).price_level ≠ "❓"
  ∧ (process_place_details tierTextDetails).price_level = "cheap"
  ∧ (process_place_details tierTextDetails).price_level ≠ "❓" :=
  ⟨rfl, by decide, rfl, by decide⟩

/-- C3, amended: every integer price tier n renders as exactly
max n 0 repetitions of the currency glyph (so n glyphs for any n at or
above zero, with no upper cutoff at 4, and the empty string for a
negative tier); an absent tier renders as the unknown placeholder; and
every present non-numeric tier value is passed through verbatim, not
replaced by the placeholder. -/
theorem c3_amended (d : GoogleDetails) (n : Int) (s : String) :
    (d.price_level = PriceField.num n →
        (process_place_details d).price_level = pyStrTimes "💵" n
      ∧ (process_place_details d).price_level.length = n.toNat)
  ∧ (d.price_level = PriceField.absent →
        (process_place_details d).price_level = "❓")
  ∧ (d.price_level = PriceField.str s →
        (process_place_details d).price_level = s) := by
  refine ⟨?_, ?_, ?_⟩
  · intro h
    have hp : (process_place_details d).price_level = pyStrTimes "💵" n := by
      simp [process_place_details, renderPriceLevel, h]
    have hlen : ("💵" : String).length = 1 := by decide
    refine ⟨hp, ?_⟩
    rw [hp]
    unfold pyStrTimes
    rw [strRepeat_length, hlen, Nat.mul_one]
  · intro h
    simp [process_place_details, renderPriceLevel, h]
  · intro h
    simp [process_place_details, renderPriceLevel, h]

/-- C3 witness: tier five renders as five glyphs of length five, an
absent tier renders as the placeholder, and the non-numeric value cheap
passes through verbatim. -/
theorem c3_amended_witness :
    ((process_place_details tierFiveDetails).price_level = pyStrTimes "💵" 5
      ∧ (process_place_details tierFiveDetails).price_level.length = (5 : Int).toNat)
  ∧ (process_place_details emptyGoogleDetails).price_level = "❓"
  ∧ (process_place_details tierTextDetails).price_level = "cheap" :=
  ⟨(c3_amended tierFiveDetails 5 "").1 rfl,
   (c3_amended emptyGoogleDetails 0 "").2.1 rfl,
   (c3_amended tierTextDetails 0 "cheap").2.2 rfl⟩

theorem mapM_option_forall2 {α β : Type} (f : α → Option β) (R : α → β → Prop)
    (hR : ∀ a b, f a = some b → R a b) :
    ∀ (l : List α) (bs : List β), l.mapM f = some bs → List.Forall₂ R l bs := by
  intro l
  induction l with
  | nil =>
    intro bs h
    rw [List.mapM_nil] at h
    cases h
    exact List.Forall₂.nil
  | cons a t ih =>
    intro bs h
    rw [List.mapM_cons] at h
    rcases hfa : f a with _ | b
    · rw [hfa] at h
      simp at h
    · rw [hfa] at h
      rcases hrest : t.mapM f with _ | rest
      · rw [hrest] at h
        simp at h
      · rw [hrest] at h
        simp only [Option.some_bind, Option.pure_def] at h
        cases h
        exact List.Forall₂.cons (hR a b hfa) (ih rest hrest)

/-- C1, corrected: the spec claims batch discovery keeps only rows whose
title ends with the marker and strips it; the code keeps every row that
has a Name property and uses the first title fragment verbatim.  Here a
row titled Pizza (no marker) is selected, and a row whose title ends
with the marker keeps it in the identifier. -/
theorem c1_counterexample :
    get_restaurants_from_notion true
        [{ id := "r1", properties := [("Name", ["Pizza"])] },
         { id := "r2", properties := [("Name", ["Bar;"])] }]
      = some [{ id := some "r1", identifier := "Pizza" },
              { id := some "r2", identifier := "Bar;" }] := rfl

/-- C1, amended: in batch mode a row is selected exactly when its
properties carry the key Name (no marker is consulted), and each
selected row contributes an entry whose id is the page id and whose
identifier is the first plain text of the title, taken verbatim with no
marker character removed. -/
theorem c1_amended (pages : List NotionPage) (es : List Entry)
    (h : get_restaurants_from_notion true pages = some es) :
    List.Forall₂ (fun (p : NotionPage) (e : Entry) =>
        e.id = some p.id
        ∧ (p.properties.lookup "Name").bind List.head? = some e.identifier)
      (pages.filter (fun p => (p.properties.lookup "Name").isSome)) es := by
  unfold get_restaurants_from_notion at h
  rw [if_pos rfl] at h
  refine mapM_option_forall2 _ _ ?_ _ _ h
  intro p e hfe
  rcases Option.map_eq_some'.mp hfe with ⟨t, ht, he⟩
  subst he
  exact ⟨rfl, by rw [ht]⟩

/-- C1 witness: a single unmarked row is kept with its verbatim title. -/
theorem c1_amended_witness :
    List.Forall₂ (fun (p : NotionPage) (e : Entry) =>
        e.id = some p.id
        ∧ (p.properties.lookup "Name").bind List.head? = some e.identifier)
      (List.filter (fun p => (p.properties.lookup "Name").isSome)
        [{ id := "r1", properties := [("Name", ["Pizza"])] }])
      [{ id := some "r1", identifier := "Pizza" }] :=
  c1_amended [{ id := "r1", properties := [("Name", ["Pizza"])] }]
    [{ id := some "r1", identifier := "Pizza" }] rfl

theorem validate_shape (url : String) :
    ((validate_and_sanitize_url url).1.isSome
      ∧ (validate_and_sanitize_url url).2 = none)
  ∨ ((validate_and_sanitize_url url).1 = none
      ∧ (validate_and_sanitize_url url).2.isSome) := by
  by_cases h1 : url.isEmpty
  · right; simp [validate_and_sanitize_url, h1]
  · by_cases h2 : url.length > 2000
    · right; simp [validate_and_sanitize_url, h1, h2]
    · by_cases h3 : (pyUrlsplit url).netloc = "maps.app.goo.gl"
      · by_cases h4 : rePathMatch (pyUrlsplit url).path
        · left; simp [validate_and_sanitize_url, h1, h2, h3, h4]
        · right; simp [validate_and_sanitize_url, h1, h2, h3, h4]
      · right; simp [validate_and_sanitize_url, h1, h2, h3]

theorem validate_ok_of_no_error (url : String)
    (h : (validate_and_sanitize_url url).2 = none) :
    ∃ s, validate_and_sanitize_url url = (some s, none) := by
  rcases validate_shape url with ⟨hs, he⟩ | ⟨hs, he⟩
  · obtain ⟨s, hss⟩ := Option.isSome_iff_exists.mp hs
    exact ⟨s, Prod.ext_iff.mpr ⟨hss, he⟩⟩
  · rw [h] at he
    simp at he

theorem validate_not_empty (url : String)
    (h : (validate_and_sanitize_url url).2 = none) : url.isEmpty = false := by
  by_cases h1 : url.isEmpty
  · simp [validate_and_sanitize_url, h1] at h
  · simpa using h1

/-- C4, corrected: the spec claims a failed single-entry run exits with
a non-zero status; in a world where resolution fails the run performs no
sync call at all, yet the interpreter exit status of main is zero. -/
theorem c4_counterexample :
    (process_restaurant failingWorld
        { id := none, identifier := "https://maps.app.goo.gl/x" }).patchCall = none
  ∧ (process_restaurant failingWorld
        { id := none, identifier := "https://maps.app.goo.gl/x" }).createCall = none
  ∧ (main_single failingWorld "https://maps.app.goo.gl/x").2 = 0 :=
  ⟨by decide, by decide, rfl⟩

/-- C4, amended: a single-entry run always terminates with exit status
zero, whether the entry succeeds or fails (resolution failure, missing
place details and rejected database writes are all logged and
swallowed); consequently the trigger surface, which relays the exit
status, reports success (HTTP 200) whenever the URL passes validation. -/
theorem c4_amended (w : World) (url : String) (env key : Option String)
    (hkey : key = env) (hok : (validate_and_sanitize_url url).2 = none) :
    (main_single w url).2 = 0
  ∧ (add_restaurant env ⟨fun u => (main_single w u).2⟩ key (some url)).status
      = 200 := by
  subst hkey
  refine ⟨rfl, ?_⟩
  obtain ⟨s, hs⟩ := validate_ok_of_no_error url hok
  have hne := validate_not_empty url hok
  simp [add_restaurant, hne, hs, main_single]

/-- C4 witness: with every external call failing, the run exits with
status zero and the trigger endpoint reports success. -/
theorem c4_amended_witness :
    (main_single failingWorld "https://maps.app.goo.gl/Abc").2 = 0
  ∧ (add_restaurant (some "k") ⟨fun u => (main_single failingWorld u).2⟩
        (some "k") (some "https://maps.app.goo.gl/Abc")).status = 200 :=
  c4_amended failingWorld "https://maps.app.goo.gl/Abc" (some "k") (some "k")
    rfl rfl

theorem elim_find_isSome (l : List AddressComponent) (tag : String)
    (ini : String) (h : ∀ c ∈ l, c.long_name.isSome) :
    (Option.elim (l.reverse.find? (fun c => c.types.contains tag))
        (some ini) (fun c => c.long_name)).isSome := by
  rcases hf : l.reverse.find? (fun c => c.types.contains tag) with _ | c
  · rw [hf, Option.elim_none]
    simp
  · rw [hf, Option.elim_some]
    exact h c (List.mem_reverse.mp (List.mem_of_find?_eq_some hf))

/-- C5, corrected: the spec claims no property is ever sent as null; a
locality component whose long_name key is missing makes the City
property content null in both the Patch and the Create payloads. -/
theorem c5_counterexample :
    (update_props (process_place_details namelessLocalityDetails)).city = none
  ∧ (create_props (process_place_details namelessLocalityDetails)).city = none :=
  ⟨rfl, rfl⟩

/-- C5, amended: both payloads always contain all seven property keys
with placeholder substitution for absent upstream data; every property
carries a concrete value provided each address component supplies a
long name (City and Country are the only properties that can become
null, and only through a matching component with no long name). -/
theorem c5_amended (d : GoogleDetails)
    (h : ∀ c ∈ d.address_components, c.long_name.isSome) :
    allPropsPresent (update_props (process_place_details d))
  ∧ allPropsPresent (create_props (process_place_details d)) := by
  have hcity : (process_place_details d).city.isSome := by
    rw [process_city_eq]
    exact elim_find_isSome _ _ _ h
  have hcountry : (process_place_details d).country.isSome := by
    rw [process_country_eq]
    exact elim_find_isSome _ _ _ h
  exact ⟨⟨hcity, hcountry, rfl, rfl, rfl, rfl, rfl⟩,
         ⟨hcity, hcountry, rfl, rfl, rfl, rfl, rfl⟩⟩

/-- C5 witness: with every component named, both payloads are fully
concrete. -/
theorem c5_amended_witness :
    allPropsPresent (update_props (process_place_details parisDetails))
  ∧ allPropsPresent (create_props (process_place_details parisDetails)) :=
  c5_amended parisDetails (by decide)

/-- C6, corrected: an entry whose place lookup succeeds and whose id is
not the sentinel can still invoke neither Patch nor Create, when the
unguarded photo fetch raises and the orchestrator catch-all abandons the
entry before the sync step. -/
theorem c6_counterexample :
    (get_place_details_from_google photoRaiseWorld "Rose").isSome
  ∧ (some "abc" : Option String) ≠ some "new_entry"
  ∧ (process_restaurant photoRaiseWorld
        { id := some "abc", identifier := "Rose" }).patchCall = none
  ∧ (process_restaurant photoRaiseWorld
        { id := some "abc", identifier := "Rose" }).createCall = none :=
  ⟨by decide, by decide, by decide, by decide⟩

/-- C6, amended: never are both operations invoked for one entry, in
every case; and for every processed entry that reaches the sync step -
the place lookup succeeded and neither the photo fetch nor the cuisine
lookup raised - Patch is invoked exactly when the entry carries an id
different from the sentinel, and Create is invoked otherwise. -/
theorem c6_sync_exclusive (w : World) (entry : Entry) :
    ¬ ((process_restaurant w entry).patchCall.isSome
        ∧ (process_restaurant w entry).createCall.isSome)
  ∧ (∀ pd, get_place_details_from_google w entry.identifier = some pd →
      upload_image_to_cloudinary w pd.photo_reference ≠ PyResult.raise →
      get_cuisine_type_from_yelp w pd.name pd.city ≠ PyResult.raise →
        ((process_restaurant w entry).patchCall.isSome
            ↔ (entry.id.isSome ∧ entry.id ≠ some "new_entry"))
      ∧ ((process_restaurant w entry).createCall.isSome
            ↔ ¬ (entry.id.isSome ∧ entry.id ≠ some "new_entry"))) := by
  constructor
  · unfold process_restaurant
    split
    · simp
    · split
      · simp
      · split
        · simp
        · split <;> simp
  · intro pd hpd hp hy
    have hcov : ∃ cu,
        (if pyNotOptStr pd.photo_reference then PyResult.val none
         else upload_image_to_cloudinary w pd.photo_reference)
          = PyResult.val cu := by
      by_cases hph : pyNotOptStr pd.photo_reference
      · exact ⟨none, by rw [if_pos hph]⟩
      · rw [if_neg hph]
        rcases hup : upload_image_to_cloudinary w pd.photo_reference with _ | cu
        · exact absurd hup hp
        · exact ⟨cu, rfl⟩
    obtain ⟨cu, hcov⟩ := hcov
    rcases hyv : get_cuisine_type_from_yelp w pd.name pd.city with _ | cs
    · exact absurd hyv hy
    · by_cases hc : (entry.id.isSome && entry.id != some "new_entry") = true
      · have hprop : entry.id.isSome ∧ entry.id ≠ some "new_entry" := by
          simpa [Bool.and_eq_true, bne_iff_ne] using hc
        simp only [process_restaurant, hpd, hcov, hyv]
        rw [if_pos hc]
        exact ⟨by simp [hprop], by simp [hprop]⟩
      · have hprop : ¬ (entry.id.isSome ∧ entry.id ≠ some "new_entry") := by
          simpa [Bool.and_eq_true, bne_iff_ne] using hc
        simp only [process_restaurant, hpd, hcov, hyv]
        rw [if_neg hc]
        exact ⟨by simp [hprop], by simp [hprop]⟩

/-- C6 witness: with handled failures only, an entry with a
non-sentinel id is patched, not created, and never both. -/
theorem c6_sync_exclusive_witness :
    (¬ ((process_restaurant photoFailWorld
            { id := some "abc", identifier := "Rose" }).patchCall.isSome
        ∧ (process_restaurant photoFailWorld
            { id := some "abc", identifier := "Rose" }).createCall.isSome))
  ∧ (((process_restaurant photoFailWorld
          { id := some "abc", identifier := "Rose" }).patchCall.isSome
        ↔ (({ id := some "abc", identifier := "Rose" } : Entry).id.isSome
          ∧ ({ id := some "abc", identifier := "Rose" } : Entry).id ≠ some "new_entry"))
      ∧ ((process_restaurant photoFailWorld
            { id := some "abc", identifier := "Rose" }).createCall.isSome
        ↔ ¬ (({ id := some "abc", identifier := "Rose" } : Entry).id.isSome
          ∧ ({ id := some "abc", identifier := "Rose" } : Entry).id ≠ some "new_entry"))) :=
  ⟨(c6_sync_exclusive photoFailWorld { id := some "abc", identifier := "Rose" }).1,
   (c6_sync_exclusive photoFailWorld { id := some "abc", identifier := "Rose" }).2
     (process_place_details
       { emptyGoogleDetails with name := some "Chez Test", photos := ["ref1"] })
     rfl (by decide) (by decide)⟩

/-- C7, confirmed: the resolver passes any input that does not start
with the scheme marker http through unchanged as the free-text query
with no identifier; for a URL input whose expansion lacks the ftid or
the q query parameter, the whole lookup returns no result instead of
crashing. -/
theorem c7_resolver (w : World) (identifier expanded : String) :
    (¬ pyStartsWith identifier "http" →
        resolve_identifier w identifier = some (none, identifier))
  ∧ (pyStartsWith identifier "http" →
      w.expand_short_url identifier = some expanded →
      ((parse_qs (pyUrlsplit expanded).query).lookup "ftid" = none
        ∨ (parse_qs (pyUrlsplit expanded).query).lookup "q" = none) →
      get_place_details_from_google w identifier = none) := by
  constructor
  · intro h
    simp [resolve_identifier, h]
  · intro hs hexp hmiss
    have hext : extract_place_info expanded = (none, none) := by
      unfold extract_place_info
      rcases hmiss with hm | hm
      · simp [hm, pyNotOptStr]
      · simp [hm, pyNotOptStr]
    have hres : resolve_identifier w identifier = none := by
      simp [resolve_identifier, hs, hexp, hext]
    simp [get_place_details_from_google, hres]

/-- C7 witness: a bare name passes through; a short link expanding to a
URL with only a q parameter resolves to nothing. -/
theorem c7_resolver_witness :
    resolve_identifier failingWorld "Roses Luxury" = some (none, "Roses Luxury")
  ∧ get_place_details_from_google noFtidWorld "http://short" = none :=
  ⟨(c7_resolver failingWorld "Roses Luxury" "").1 (by decide),
   (c7_resolver noFtidWorld "http://short" "https://maps.google.com/?q=x").2
     (by decide) rfl (Or.inl (by decide))⟩

/-- C8, corrected: a photo fetch whose HTTP request raises is a photo
relay failure after which the Database Sync call does NOT occur - the
exception propagates past the relay boundary to the orchestrator
catch-all, which abandons the entry with neither sync operation. -/
theorem c8_counterexample :
    (get_place_details_from_google photoRaiseWorld "Rose").isSome
  ∧ pyNotOptStr (process_place_details
        { emptyGoogleDetails with
            name := some "Chez Test", photos := ["ref1"] }).photo_reference
      = false
  ∧ (process_restaurant photoRaiseWorld
        { id := none, identifier := "Rose" }).patchCall = none
  ∧ (process_restaurant photoRaiseWorld
        { id := none, identifier := "Rose" }).createCall = none :=
  ⟨by decide, by decide, by decide, by decide⟩

/-- C8, amended: a handled photo relay failure - a non-200 photo fetch
response or an image host upload failure, both of which make the relay
return no cover URL - leaves the entry on its normal course: provided
the cuisine lookup raises no exception, the Database Sync call still
occurs and its payload omits the cover property.  A photo fetch whose
request raises instead aborts the entry before any sync call. -/
theorem c8_photo_failure (w : World) (entry : Entry) (pd : PlaceDetails)
    (hpd : get_place_details_from_google w entry.identifier = some pd)
    (hphoto : pyNotOptStr pd.photo_reference = false) :
    (upload_image_to_cloudinary w pd.photo_reference = PyResult.val none →
      get_cuisine_type_from_yelp w pd.name pd.city ≠ PyResult.raise →
        ((process_restaurant w entry).patchCall.isSome
          ∨ (process_restaurant w entry).createCall.isSome)
      ∧ (∀ pc, (process_restaurant w entry).patchCall = some pc → pc.cover = none)
      ∧ (∀ cc, (process_restaurant w entry).createCall = some cc → cc.cover = none))
  ∧ (upload_image_to_cloudinary w pd.photo_reference = PyResult.raise →
        (process_restaurant w entry).patchCall = none
      ∧ (process_restaurant w entry).createCall = none) := by
  constructor
  · intro hup hy
    rcases hyv : get_cuisine_type_from_yelp w pd.name pd.city with _ | cs
    · exact absurd hyv hy
    · have hcov :
          (if pyNotOptStr pd.photo_reference then PyResult.val none
           else upload_image_to_cloudinary w pd.photo_reference)
            = PyResult.val (none : Option String) := by
        rw [if_neg (by simp [hphoto]), hup]
      simp only [process_restaurant, hpd, hcov, hyv]
      by_cases hc : (entry.id.isSome && entry.id != some "new_entry") = true
      · rw [if_pos hc]
        refine ⟨Or.inl (by simp), ?_, ?_⟩
        · intro pc hpc
          simp only [Option.some_inj] at hpc
          rw [← hpc]
          simp [update_notion_payload, pyNotOptStr]
        · intro cc hcc
          simp at hcc
      · rw [if_neg hc]
        refine ⟨Or.inr (by simp), ?_, ?_⟩
        · intro pc hpc
          simp at hpc
        · intro cc hcc
          simp only [Option.some_inj] at hcc
          rw [← hcc]
          simp [create_notion_payload, pyNotOptStr]
  · intro hup
    have hcov :
        (if pyNotOptStr pd.photo_reference then PyResult.val none
         else upload_image_to_cloudinary w pd.photo_reference)
          = (PyResult.raise : PyResult (Option String)) := by
      rw [if_neg (by simp [hphoto]), hup]
    simp only [process_restaurant, hpd, hcov]
    exact ⟨trivial, trivial⟩

/-- C8 witness: a non-200 photo fetch still leads to a create call with
no cover, while a raising photo fetch leads to no sync call at all. -/
theorem c8_photo_failure_witness :
    (((process_restaurant photoFailWorld
          { id := none, identifier := "Rose" }).patchCall.isSome
      ∨ (process_restaurant photoFailWorld
          { id := none, identifier := "Rose" }).createCall.isSome)
    ∧ (∀ pc, (process_restaurant photoFailWorld
          { id := none, identifier := "Rose" }).patchCall = some pc → pc.cover = none)
    ∧ (∀ cc, (process_restaurant photoFailWorld
          { id := none, identifier := "Rose" }).createCall = some cc → cc.cover = none))
  ∧ ((process_restaurant photoRaiseWorld
          { id := none, identifier := "Rose" }).patchCall = none
    ∧ (process_restaurant photoRaiseWorld
          { id := none, identifier := "Rose" }).createCall = none) :=
  ⟨(c8_photo_failure photoFailWorld { id := none, identifier := "Rose" }
      (process_place_details
        { emptyGoogleDetails with name := some "Chez Test", photos := ["ref1"] })
      rfl (by decide)).1 (by decide) (by decide),
   (c8_photo_failure photoRaiseWorld { id := none, identifier := "Rose" }
      (process_place_details
        { emptyGoogleDetails with name := some "Chez Test", photos := ["ref1"] })
      rfl (by decide)).2 (by decide)⟩

theorem add_restaurant_rejects (env key : Option String) (sw : ServerWorld)
    (url : String) (hkey : key = env)
    (hbad : (validate_and_sanitize_url url).2.isSome) :
    add_restaurant env sw key (some url) = { status := 400, invoked := none } := by
  subst hkey
  unfold add_restaurant
  rw [if_neg (by simp)]
  by_cases hemp : url.isEmpty
  · simp [hemp]
  · rcases hv : validate_and_sanitize_url url with ⟨a, b⟩
    rw [hv] at hbad
    obtain ⟨e, he⟩ := Option.isSome_iff_exists.mp hbad
    subst he
    rcases a with _ | s <;> simp [hv, hemp]

/-- C9, confirmed: the trigger endpoint accepts a URL only when its
host is exactly the trusted domain maps.app.goo.gl; the sanitized URL
is rebuilt from the query parameters filtered to the single allow-listed
key g_st, dropping all others; and on any validation failure the
request is answered 400 and the pipeline subprocess is never started. -/
theorem c9_trigger (url s : String) (env key : Option String)
    (sw : ServerWorld) (e : String) :
    (validate_and_sanitize_url url = (some s, none) →
        (pyUrlsplit url).netloc = "maps.app.goo.gl")
  ∧ (∀ kv ∈ sanitizedQueryParams url, kv.1 = "g_st")
  ∧ (key = env → validate_and_sanitize_url url = (none, some e) →
        add_restaurant env sw key (some url) = { status := 400, invoked := none }) := by
  refine ⟨?_, ?_, ?_⟩
  · intro h
    by_cases h1 : url.isEmpty
    · simp [validate_and_sanitize_url, h1] at h
    · by_cases h2 : url.length > 2000
      · simp [validate_and_sanitize_url, h1, h2] at h
      · by_cases h3 : (pyUrlsplit url).netloc = "maps.app.goo.gl"
        · exact h3
        · simp [validate_and_sanitize_url, h1, h2, h3] at h
  · intro kv hkv
    unfold sanitizedQueryParams at hkv
    have hmem : kv.1 ∈ allowed_params := by
      simpa using (List.mem_filter.mp hkv).2
    simpa [allowed_params] using hmem
  · intro hkey hv
    exact add_restaurant_rejects env key sw url hkey (by rw [hv]; simp)

/-- C9 witness: a trusted URL keeps only the g_st parameter and is
accepted; an untrusted URL is answered 400 with no subprocess. -/
theorem c9_trigger_witness :
    (pyUrlsplit "https://maps.app.goo.gl/Abc?g_st=ic&x=1").netloc = "maps.app.goo.gl"
  ∧ add_restaurant (some "k") ⟨fun _ => 0⟩ (some "k") (some "https://evil.com/x")
      = { status := 400, invoked := none } :=
  ⟨(c9_trigger "https://maps.app.goo.gl/Abc?g_st=ic&x=1"
      "https://maps.app.goo.gl/Abc?g_st=ic" (some "k") (some "k") ⟨fun _ => 0⟩
      "").1 rfl,
   (c9_trigger "https://evil.com/x" "" (some "k") (some "k") ⟨fun _ => 0⟩
      "URL is not from a trusted domain").2.2 rfl rfl⟩

/-- C10, confirmed: beyond the host check, the trigger endpoint rejects
with a client error, without starting the pipeline, any URL whose path
is not one slash followed by one or more ASCII alphanumerics, and any
URL longer than 2000 characters. -/
theorem c10_extra_validation (env key : Option String) (sw : ServerWorld)
    (url : String) (hkey : key = env)
    (h : rePathMatch (pyUrlsplit url).path = false ∨ url.length > 2000) :
    (validate_and_sanitize_url url).2.isSome
  ∧ add_restaurant env sw key (some url) = { status := 400, invoked := none } := by
  have hbad : (validate_and_sanitize_url url).2.isSome := by
    by_cases h1 : url.isEmpty
    · simp [validate_and_sanitize_url, h1]
    · by_cases h2 : url.length > 2000
      · simp [validate_and_sanitize_url, h1, h2]
      · by_cases h3 : (pyUrlsplit url).netloc = "maps.app.goo.gl"
        · rcases h with hp | hl
          · simp [validate_and_sanitize_url, h1, h2, h3, hp]
          · exact absurd hl h2
        · simp [validate_and_sanitize_url, h1, h2, h3]
  exact ⟨hbad, add_restaurant_rejects env key sw url hkey hbad⟩

/-- C10 witness: a trusted-host URL with a two-segment path is rejected
with 400 and the pipeline is not started. -/
theorem c10_extra_validation_witness :
    (validate_and_sanitize_url "https://maps.app.goo.gl/a/b").2.isSome
  ∧ add_restaurant (some "k") ⟨fun _ => 0⟩ (some "k")
        (some "https://maps.app.goo.gl/a/b")
      = { status := 400, invoked := none } :=
  c10_extra_validation (some "k") (some "k") ⟨fun _ => 0⟩
    "https://maps.app.goo.gl/a/b" rfl (Or.inl (by decide))
